import Mathlib

set_option maxRecDepth 200000

set_option maxHeartbeats 2000000

/-!
Verification of the opcode classification and dispatch-table synthesis engine
of the repository (src/src/inst_table.py and src/src/cross_check_tables.py).

The Python source is shallowly embedded: Python `str` becomes `String`,
Python integers become `Nat`, a Python block of `if`/`elif` statements whose
branches `return` becomes an `Option String`-valued expression where `none`
models "no branch returned, control falls through to the statements after the
block", and Python dictionaries become `String -> Option String` matches
(`none` models a missing key, `Option.getD` models `dict.get(k, default)`).
-/

namespace GBA

/-- Embedding of `classify` from src/src/inst_table.py (lines 8-182).
Each top-level `if` statement of the Python function becomes one `Option
String`-valued rule; a rule evaluates to `none` exactly when the Python block
would fall through without returning, and the rules are chained with `<|>`
in source order, ending in the unconditional `return "Undefined/Reserved"`. -/
def classify (bits_27_20 mul_swp_bit : Nat) : String :=
  let b27 := (bits_27_20 >>> 7) &&& 1
  let b26 := (bits_27_20 >>> 6) &&& 1
  let b25 := (bits_27_20 >>> 5) &&& 1
  let b24 := (bits_27_20 >>> 4) &&& 1
  let b23 := (bits_27_20 >>> 3) &&& 1
  let b22 := (bits_27_20 >>> 2) &&& 1
  let b21 := (bits_27_20 >>> 1) &&& 1
  let b20 := bits_27_20 &&& 1
  -- MRS / MSR (register form)
  let mrs_msr : Option String :=
    if b27 = 0 ∧ b26 = 0 ∧ b25 = 0 ∧ b24 = 1 ∧ b23 = 0 ∧ b20 = 0 ∧ mul_swp_bit = 0 then
      if b21 = 0 then some "MRS" else some "MSR_REG"
    else none
  -- MSR (immediate)
  let msr_imm : Option String :=
    if b27 = 0 ∧ b26 = 0 ∧ b25 = 1 ∧ b24 = 1 ∧ b23 = 0 ∧ b20 = 0 ∧ mul_swp_bit = 0 then
      some "MSR_IMM"
    else none
  -- MUL/MLA (the Python inner chain is `if b21 == 0 / elif b21 == 1` with no else)
  let mul_mla : Option String :=
    if b27 = 0 ∧ b26 = 0 ∧ b25 = 0 ∧ b24 = 0 ∧ b23 = 0 ∧ b22 = 0 ∧ mul_swp_bit = 1 then
      if b21 = 0 then some (if b20 = 1 then "MULS" else "MUL")
      else if b21 = 1 then some (if b20 = 1 then "MLAS" else "MLA")
      else none
    else none
  -- UMULL/UMLAL/SMULL/SMLAL
  let long_mul : Option String :=
    if b27 = 0 ∧ b26 = 0 ∧ b25 = 0 ∧ b24 = 0 ∧ b23 = 1 ∧ mul_swp_bit = 1 then
      if b22 = 0 ∧ b21 = 0 then some (if b20 = 1 then "UMULLS" else "UMULL")
      else if b22 = 0 ∧ b21 = 1 then some (if b20 = 1 then "UMLALS" else "UMLAL")
      else if b22 = 1 ∧ b21 = 0 then some (if b20 = 1 then "SMULLS" else "SMULL")
      else if b22 = 1 ∧ b21 = 1 then some (if b20 = 1 then "SMLALS" else "SMLAL")
      else none
    else none
  -- SWP/SWPB
  let swp : Option String :=
    if b27 = 0 ∧ b26 = 0 ∧ b25 = 0 ∧ b24 = 1 ∧ b23 = 0 ∧ mul_swp_bit = 1 then
      if b22 = 0 then some "SWP"
      else if b22 = 1 then some "SWPB"
      else none
    else none
  -- Data Processing (both Python returns concatenate the mapped name and suffix;
  -- `data_proc_map.get(opcode, 'Other DP')` is the match default)
  let data_proc : Option String :=
    if b27 = 0 ∧ b26 = 0 ∧ mul_swp_bit = 0 then
      let opcode := (bits_27_20 >>> 1) &&& 0xF
      let suffix := if b25 = 1 then "_IMM" else "_REG"
      let name :=
        match opcode with
        | 0x0 => "AND"
        | 0x1 => "EOR"
        | 0x2 => "SUB"
        | 0x3 => "RSB"
        | 0x4 => "ADD"
        | 0x5 => "ADC"
        | 0x6 => "SBC"
        | 0x7 => "RSC"
        | 0x8 => "TST"
        | 0x9 => "TEQ"
        | 0xA => "CMP"
        | 0xB => "CMN"
        | 0xC => "ORR"
        | 0xD => "MOV"
        | 0xE => "BIC"
        | 0xF => "MVN"
        | _ => "Other DP"
      if opcode = 0x8 ∨ opcode = 0x9 ∨ opcode = 0xA ∨ opcode = 0xB then
        some (name ++ suffix)
      else
        some (name ++ suffix)
    else none
  -- Single Data Transfer
  let sdt : Option String :=
    if b27 = 0 ∧ b26 = 1 ∧ mul_swp_bit = 0 then
      if b20 = 0 ∧ b22 = 0 ∧ b25 = 0 then
        some (if b24 = 0 then "STR_IMM_POST_WB"
              else if b21 = 1 then "STR_IMM_PRE_WB" else "STR_IMM_PRE_NOWB")
      else if b20 = 0 ∧ b22 = 0 ∧ b25 = 1 then
        some (if b24 = 0 then "STR_REG_POST_WB"
              else if b21 = 1 then "STR_REG_PRE_WB" else "STR_REG_PRE_NOWB")
      else if b20 = 0 ∧ b22 = 1 ∧ b25 = 0 then
        some (if b24 = 0 then "STRB_IMM_POST_WB"
              else if b21 = 1 then "STRB_IMM_PRE_WB" else "STRB_IMM_PRE_NOWB")
      else if b20 = 0 ∧ b22 = 1 ∧ b25 = 1 then
        some (if b24 = 0 then "STRB_REG_POST_WB"
              else if b21 = 1 then "STRB_REG_PRE_WB" else "STRB_REG_PRE_NOWB")
      else if b20 = 1 ∧ b22 = 0 ∧ b25 = 0 then
        some (if b24 = 0 then "LDR_IMM_POST_WB"
              else if b21 = 1 then "LDR_IMM_PRE_WB" else "LDR_IMM_PRE_NOWB")
      else if b20 = 1 ∧ b22 = 0 ∧ b25 = 1 then
        some (if b24 = 0 then "LDR_REG_POST_WB"
              else if b21 = 1 then "LDR_REG_PRE_WB" else "LDR_REG_PRE_NOWB")
      else if b20 = 1 ∧ b22 = 1 ∧ b25 = 0 then
        some (if b24 = 0 then "LDRB_IMM_POST_WB"
              else if b21 = 1 then "LDRB_IMM_PRE_WB" else "LDRB_IMM_PRE_NOWB")
      else if b20 = 1 ∧ b22 = 1 ∧ b25 = 1 then
        some (if b24 = 0 then "LDRB_REG_POST_WB"
              else if b21 = 1 then "LDRB_REG_PRE_WB" else "LDRB_REG_PRE_NOWB")
      else
        some "Other SDT"
    else none
  -- Branch (this block appears twice, verbatim, in the source)
  let branch1 : Option String :=
    if b27 = 1 ∧ b26 = 0 ∧ b25 = 1 then
      if b24 = 0 then some "B" else if b24 = 1 then some "BL" else none
    else none
  let branch2 : Option String :=
    if b27 = 1 ∧ b26 = 0 ∧ b25 = 1 then
      if b24 = 0 then some "B" else if b24 = 1 then some "BL" else none
    else none
  -- Block Data Transfer
  let block_dt : Option String :=
    if b27 = 1 ∧ b26 = 0 ∧ b25 = 0 then
      if b20 = 1 then some "LDM" else some "STM"
    else none
  -- Software Interrupt
  let swi : Option String :=
    if b27 = 1 ∧ b26 = 1 ∧ b25 = 1 ∧ b24 = 1 then some "SWI" else none
  -- Coprocessor instructions
  let coproc : Option String :=
    if b27 = 1 ∧ b26 = 1 ∧ b24 = 0 then
      if b22 = 1 ∧ b20 = 1 then some (if b25 = 0 then "LDC_IMM" else "LDC_REG")
      else if b22 = 0 ∧ b20 = 1 then some (if b25 = 0 then "LDC_IMM" else "LDC_REG")
      else if b22 = 1 ∧ b20 = 0 then some (if b25 = 0 then "STC_IMM" else "STC_REG")
      else if b22 = 0 ∧ b20 = 0 then some (if b25 = 0 then "STC_IMM" else "STC_REG")
      else if b22 = 1 then some "MRC"
      else if b22 = 0 then some "MCR"
      else none
    else none
  -- BX (possible) placeholder
  let bx : Option String :=
    if b27 = 0 ∧ b26 = 0 ∧ b25 = 1 ∧ b24 = 0 ∧ b23 = 0 ∧ b22 = 1 ∧ b21 = 0 ∧ b20 = 0 ∧
        mul_swp_bit = 0 then
      some "BX (possible)"
    else none
  (mrs_msr <|> msr_imm <|> mul_mla <|> long_mul <|> swp <|> data_proc <|> sdt <|>
    branch1 <|> branch2 <|> block_dt <|> swi <|> coproc <|> bx).getD "Undefined/Reserved"

/-- Embedding of the `type_to_handler` dictionary of src/src/inst_table.py (lines 184-294):
the static Category -> HandlerName lookup.  `none` models a missing dictionary key. -/
def type_to_handler (c : String) : Option String :=
  match c with
  | "LDR_IMM_PRE_WB" => some "exec_arm_ldr_imm_pre_wb"
  | "LDR_IMM_PRE_NOWB" => some "exec_arm_ldr_imm_pre_nowb"
  | "LDR_IMM_POST_WB" => some "exec_arm_ldr_imm_post_wb"
  | "LDR_IMM_POST_NOWB" => some "exec_arm_ldr_imm_post_nowb"
  | "LDR_REG_PRE_WB" => some "exec_arm_ldr_reg_pre_wb"
  | "LDR_REG_PRE_NOWB" => some "exec_arm_ldr_reg_pre_nowb"
  | "LDR_REG_POST_WB" => some "exec_arm_ldr_reg_post_wb"
  | "LDR_REG_POST_NOWB" => some "exec_arm_ldr_reg_post_nowb"
  | "LDRB_IMM_PRE_WB" => some "exec_arm_ldrb_imm_pre_wb"
  | "LDRB_IMM_PRE_NOWB" => some "exec_arm_ldrb_imm_pre_nowb"
  | "LDRB_IMM_POST_WB" => some "exec_arm_ldrb_imm_post_wb"
  | "LDRB_IMM_POST_NOWB" => some "exec_arm_ldrb_imm_post_nowb"
  | "LDRB_REG_PRE_WB" => some "exec_arm_ldrb_reg_pre_wb"
  | "LDRB_REG_PRE_NOWB" => some "exec_arm_ldrb_reg_pre_nowb"
  | "LDRB_REG_POST_WB" => some "exec_arm_ldrb_reg_post_wb"
  | "LDRB_REG_POST_NOWB" => some "exec_arm_ldrb_reg_post_nowb"
  | "STR_IMM_PRE_WB" => some "exec_arm_str_imm_pre_wb"
  | "STR_IMM_PRE_NOWB" => some "exec_arm_str_imm_pre_nowb"
  | "STR_IMM_POST_WB" => some "exec_arm_str_imm_post_wb"
  | "STR_IMM_POST_NOWB" => some "exec_arm_str_imm_post_nowb"
  | "STR_REG_PRE_WB" => some "exec_arm_str_reg_pre_wb"
  | "STR_REG_PRE_NOWB" => some "exec_arm_str_reg_pre_nowb"
  | "STR_REG_POST_WB" => some "exec_arm_str_reg_post_wb"
  | "STR_REG_POST_NOWB" => some "exec_arm_str_reg_post_nowb"
  | "STRB_IMM_PRE_WB" => some "exec_arm_strb_imm_pre_wb"
  | "STRB_IMM_PRE_NOWB" => some "exec_arm_strb_imm_pre_nowb"
  | "STRB_IMM_POST_WB" => some "exec_arm_strb_imm_post_wb"
  | "STRB_IMM_POST_NOWB" => some "exec_arm_strb_imm_post_nowb"
  | "STRB_REG_PRE_WB" => some "exec_arm_strb_reg_pre_wb"
  | "STRB_REG_PRE_NOWB" => some "exec_arm_strb_reg_pre_nowb"
  | "STRB_REG_POST_WB" => some "exec_arm_strb_reg_post_wb"
  | "STRB_REG_POST_NOWB" => some "exec_arm_strb_reg_post_nowb"
  | "MLA" => some "exec_arm_mla"
  | "MLAS" => some "exec_arm_mla"
  | "MUL" => some "exec_arm_mul"
  | "MULS" => some "exec_arm_mul"
  | "SMLAL" => some "exec_arm_smlal"
  | "SMLALS" => some "exec_arm_smlal"
  | "SMULL" => some "exec_arm_smull"
  | "SMULLS" => some "exec_arm_smull"
  | "SWP" => some "exec_arm_swp"
  | "SWPB" => some "exec_arm_swpb"
  | "UMLAL" => some "exec_arm_umlal"
  | "UMLALS" => some "exec_arm_umlal"
  | "UMULL" => some "exec_arm_umull"
  | "UMULLS" => some "exec_arm_umull"
  | "ADC_IMM" => some "exec_arm_adc_imm"
  | "ADC_REG" => some "exec_arm_adc_reg"
  | "ADD_IMM" => some "exec_arm_add_imm"
  | "ADD_REG" => some "exec_arm_add_reg"
  | "AND_IMM" => some "exec_arm_and_imm"
  | "AND_REG" => some "exec_arm_and_reg"
  | "BIC_IMM" => some "exec_arm_bic_imm"
  | "BIC_REG" => some "exec_arm_bic_reg"
  | "CMN_IMM" => some "exec_arm_cmn_imm"
  | "CMN_REG" => some "exec_arm_cmn_reg"
  | "CMP_IMM" => some "exec_arm_cmp_imm"
  | "CMP_REG" => some "exec_arm_cmp_reg"
  | "EOR_IMM" => some "exec_arm_eor_imm"
  | "EOR_REG" => some "exec_arm_eor_reg"
  | "MOV_IMM" => some "exec_arm_mov_imm"
  | "MOV_REG" => some "exec_arm_mov_reg"
  | "MVN_IMM" => some "exec_arm_mvn_imm"
  | "MVN_REG" => some "exec_arm_mvn_reg"
  | "ORR_IMM" => some "exec_arm_orr_imm"
  | "ORR_REG" => some "exec_arm_orr_reg"
  | "RSB_IMM" => some "exec_arm_rsb_imm"
  | "RSB_REG" => some "exec_arm_rsb_reg"
  | "RSC_IMM" => some "exec_arm_rsc_imm"
  | "RSC_REG" => some "exec_arm_rsc_reg"
  | "SBC_IMM" => some "exec_arm_sbc_imm"
  | "SBC_REG" => some "exec_arm_sbc_reg"
  | "SUB_IMM" => some "exec_arm_sub_imm"
  | "SUB_REG" => some "exec_arm_sub_reg"
  | "TEQ_IMM" => some "exec_arm_teq_imm"
  | "TEQ_REG" => some "exec_arm_teq_reg"
  | "TST_IMM" => some "exec_arm_tst_imm"
  | "TST_REG" => some "exec_arm_tst_reg"
  | "B" => some "exec_arm_b"
  | "BL" => some "exec_arm_bl"
  | "LDM" => some "exec_arm_ldm"
  | "STM" => some "exec_arm_stm"
  | "SWI" => some "exec_arm_software_interrupt"
  | "LDC_IMM" => some "exec_arm_ldc_imm"
  | "LDC_REG" => some "exec_arm_ldc_reg"
  | "MCR" => some "exec_arm_mcr"
  | "MRC" => some "exec_arm_mrc"
  | "STC_IMM" => some "exec_arm_stc_imm"
  | "STC_REG" => some "exec_arm_stc_reg"
  | "BX (possible)" => some "exec_arm_bx_possible"
  | "MRS" => some "exec_arm_mrs"
  | "MSR_REG" => some "exec_arm_msr_reg"
  | "MSR_IMM" => some "exec_arm_msr_imm"
  | "Undefined/Reserved" => some "exec_arm_undefined"
  | _ => none

/-- Embedding of the dispatch-table builder loop of src/src/inst_table.py
(lines 296-302): `handler_array = [None] * 512` followed by the nested loop
`for idx in range(256): for mul_swp_bit in (0, 1):` that stores
`type_to_handler.get(classify(idx, mul_swp_bit), "exec_arm_undefined")`
at position `(idx << 1) | mul_swp_bit`.  `none` models the initial
`None` placeholder. -/
def handler_array : List (Option String) :=
  (List.range 256).foldl
    (fun acc idx =>
      [0, 1].foldl
        (fun acc2 mul_swp_bit =>
          acc2.set ((idx <<< 1) ||| mul_swp_bit)
            (some ((type_to_handler (classify idx mul_swp_bit)).getD "exec_arm_undefined")))
        acc)
    (List.replicate 512 none)

end GBA

namespace GBA

/-- The HandlerName stored by the builder for table index `i`: the Category of
`(i / 2, i % 2)` resolved through `type_to_handler`, with the
`"exec_arm_undefined"` fallback of the `.get` call in line 302. -/
def handler_for (i : Nat) : String :=
  (type_to_handler (classify (i / 2) (i % 2))).getD "exec_arm_undefined"

theorem shl_one_or_zero : ∀ k < 256, (k <<< 1) ||| 0 = 2 * k := by decide

theorem shl_one_or_one : ∀ k < 256, (k <<< 1) ||| 1 = 2 * k + 1 := by decide

/-- State of the builder loop after `n` outer iterations: indices below `2 * n`
hold their final handler, the rest still hold the `None` placeholder. -/
theorem handler_array_loop (n : Nat) :
    n ≤ 256 →
    (List.range n).foldl
      (fun acc idx =>
        [0, 1].foldl
          (fun acc2 mul_swp_bit =>
            acc2.set ((idx <<< 1) ||| mul_swp_bit)
              (some ((type_to_handler (classify idx mul_swp_bit)).getD "exec_arm_undefined")))
          acc)
      (List.replicate 512 none) =
    (List.range 512).map (fun i => if i < 2 * n then some (handler_for i) else none) := by
  induction n with
  | zero =>
      intro _
      apply List.ext_getElem (by simp)
      intro i h1 h2
      simp
  | succ k ih =>
      intro hn
      rw [List.range_succ, List.foldl_append, ih (by omega)]
      simp only [List.foldl_cons, List.foldl_nil]
      rw [shl_one_or_zero k (by omega), shl_one_or_one k (by omega)]
      apply List.ext_getElem (by simp)
      intro i h1 h2
      have hi512 : i < 512 := by simpa using h2
      simp only [List.getElem_set, List.getElem_map, List.getElem_range]
      by_cases hA : i = 2 * k + 1
      · subst hA
        have e1 : (2 * k + 1) / 2 = k := by omega
        have e2 : (2 * k + 1) % 2 = 1 := by omega
        simp [handler_for, e1, e2, show 2 * k + 1 < 2 * (k + 1) by omega]
      · by_cases hB : i = 2 * k
        · subst hB
          have e1 : (2 * k) / 2 = k := by omega
          have e2 : (2 * k) % 2 = 0 := by omega
          simp [handler_for, e1, e2, show ¬ (2 * k + 1 = 2 * k) by omega,
            show 2 * k < 2 * (k + 1) by omega]
        · rw [if_neg (by omega), if_neg (by omega)]
          by_cases hc : i < 2 * k
          · rw [if_pos hc, if_pos (by omega)]
          · rw [if_neg hc, if_neg (by omega)]

/-- The built `handler_array` is the table `i -> handler_for i`. -/
theorem handler_array_eq :
    handler_array = (List.range 512).map (fun i => some (handler_for i)) := by
  have h := handler_array_loop 256 (by omega)
  unfold handler_array
  rw [h]
  apply List.map_congr_left
  intro i hi
  rw [List.mem_range] at hi
  rw [if_pos (by omega)]

theorem handler_array_getElem (i : Nat) (hi : i < 512) :
    handler_array[i]? = some (some (handler_for i)) := by
  rw [handler_array_eq, List.getElem?_map]
  simp [List.getElem?_range, hi]

end GBA

namespace GBA

/-- The sequence of table indices `(idx << 1) | mul_swp_bit` written by the
builder loop of src/src/inst_table.py (lines 298-302), in write order. -/
def write_indices : List Nat :=
  (List.range 256).flatMap (fun idx => [(idx <<< 1) ||| 0, (idx <<< 1) ||| 1])

/-- Boolean suffix test on the underlying character lists (the reference
`String.endsWith` does not reduce in the kernel). -/
def has_suffix (s suf : String) : Bool :=
  suf.data.isSuffixOf s.data

/-- The 83 Category strings that `classify` actually returns: its image over
all 512 inputs, in first-occurrence order. -/
def categories : List String :=
  ["MUL", "AND_REG", "MULS", "MLA", "EOR_REG", "MLAS", "SUB_REG", "RSB_REG", "UMULL", "ADD_REG", "UMULLS", "UMLAL", "ADC_REG", "UMLALS", "SMULL", "SBC_REG", "SMULLS", "SMLAL", "RSC_REG", "SMLALS", "TST_REG", "TEQ_REG", "SWP", "MRS", "CMP_REG", "MSR_REG", "CMN_REG", "SWPB", "ORR_REG", "MOV_REG", "BIC_REG", "MVN_REG", "AND_IMM", "EOR_IMM", "SUB_IMM", "RSB_IMM", "ADD_IMM", "ADC_IMM", "SBC_IMM", "RSC_IMM", "TST_IMM", "TEQ_IMM", "CMP_IMM", "MSR_IMM", "CMN_IMM", "ORR_IMM", "MOV_IMM", "BIC_IMM", "MVN_IMM", "STR_IMM_POST_WB", "LDR_IMM_POST_WB", "STRB_IMM_POST_WB", "LDRB_IMM_POST_WB", "STR_IMM_PRE_NOWB", "LDR_IMM_PRE_NOWB", "STR_IMM_PRE_WB", "LDR_IMM_PRE_WB", "STRB_IMM_PRE_NOWB", "LDRB_IMM_PRE_NOWB", "STRB_IMM_PRE_WB", "LDRB_IMM_PRE_WB", "STR_REG_POST_WB", "LDR_REG_POST_WB", "STRB_REG_POST_WB", "LDRB_REG_POST_WB", "STR_REG_PRE_NOWB", "LDR_REG_PRE_NOWB", "STR_REG_PRE_WB", "LDR_REG_PRE_WB", "STRB_REG_PRE_NOWB", "LDRB_REG_PRE_NOWB", "STRB_REG_PRE_WB", "LDRB_REG_PRE_WB", "STM", "LDM", "B", "BL", "STC_IMM", "LDC_IMM", "Undefined/Reserved", "STC_REG", "LDC_REG", "SWI"]

/-- The dictionary entry of `type_to_handler` for each Category of
`categories`, in the same order (`none` would mean a missing key). -/
def category_handlers : List (Option String) :=
  [some "exec_arm_mul", some "exec_arm_and_reg", some "exec_arm_mul", some "exec_arm_mla", some "exec_arm_eor_reg", some "exec_arm_mla", some "exec_arm_sub_reg", some "exec_arm_rsb_reg", some "exec_arm_umull", some "exec_arm_add_reg", some "exec_arm_umull", some "exec_arm_umlal", some "exec_arm_adc_reg", some "exec_arm_umlal", some "exec_arm_smull", some "exec_arm_sbc_reg", some "exec_arm_smull", some "exec_arm_smlal", some "exec_arm_rsc_reg", some "exec_arm_smlal", some "exec_arm_tst_reg", some "exec_arm_teq_reg", some "exec_arm_swp", some "exec_arm_mrs", some "exec_arm_cmp_reg", some "exec_arm_msr_reg", some "exec_arm_cmn_reg", some "exec_arm_swpb", some "exec_arm_orr_reg", some "exec_arm_mov_reg", some "exec_arm_bic_reg", some "exec_arm_mvn_reg", some "exec_arm_and_imm", some "exec_arm_eor_imm", some "exec_arm_sub_imm", some "exec_arm_rsb_imm", some "exec_arm_add_imm", some "exec_arm_adc_imm", some "exec_arm_sbc_imm", some "exec_arm_rsc_imm", some "exec_arm_tst_imm", some "exec_arm_teq_imm", some "exec_arm_cmp_imm", some "exec_arm_msr_imm", some "exec_arm_cmn_imm", some "exec_arm_orr_imm", some "exec_arm_mov_imm", some "exec_arm_bic_imm", some "exec_arm_mvn_imm", some "exec_arm_str_imm_post_wb", some "exec_arm_ldr_imm_post_wb", some "exec_arm_strb_imm_post_wb", some "exec_arm_ldrb_imm_post_wb", some "exec_arm_str_imm_pre_nowb", some "exec_arm_ldr_imm_pre_nowb", some "exec_arm_str_imm_pre_wb", some "exec_arm_ldr_imm_pre_wb", some "exec_arm_strb_imm_pre_nowb", some "exec_arm_ldrb_imm_pre_nowb", some "exec_arm_strb_imm_pre_wb", some "exec_arm_ldrb_imm_pre_wb", some "exec_arm_str_reg_post_wb", some "exec_arm_ldr_reg_post_wb", some "exec_arm_strb_reg_post_wb", some "exec_arm_ldrb_reg_post_wb", some "exec_arm_str_reg_pre_nowb", some "exec_arm_ldr_reg_pre_nowb", some "exec_arm_str_reg_pre_wb", some "exec_arm_ldr_reg_pre_wb", some "exec_arm_strb_reg_pre_nowb", some "exec_arm_ldrb_reg_pre_nowb", some "exec_arm_strb_reg_pre_wb", some "exec_arm_ldrb_reg_pre_wb", some "exec_arm_stm", some "exec_arm_ldm", some "exec_arm_b", some "exec_arm_bl", some "exec_arm_stc_imm", some "exec_arm_ldc_imm", some "exec_arm_undefined", some "exec_arm_stc_reg", some "exec_arm_ldc_reg", some "exec_arm_software_interrupt"]

/-- The builder's write indices are exactly `0, 1, ..., 511` in order. -/
theorem write_indices_eq : write_indices = List.range 512 := by decide

/-- Every classification lands in the reachable Category list. -/
theorem classify_mem_categories :
    ∀ op8 < 256, ∀ d < 2, classify op8 d ∈ categories := by decide

/-- Looking the reachable Categories up in `type_to_handler` yields exactly
the listed dictionary entries. -/
theorem category_handlers_eq :
    categories.map type_to_handler = category_handlers := by decide

/-- Zipping a list with its own image pairs every element with its image. -/
theorem zip_self_map (f : α → β) (l : List α) :
    l.zip (l.map f) = l.map (fun a => (a, f a)) := by
  induction l with
  | nil => rfl
  | cons a t ih => simp [ih]

/-- The key-value pairs of the dictionary restricted to reachable Categories. -/
theorem categories_zip :
    categories.map (fun c => (c, type_to_handler c)) =
      categories.zip category_handlers := by
  rw [← category_handlers_eq, zip_self_map]

/-- A reachable Category paired with its dictionary entry is one of the listed
key-value pairs. -/
theorem handler_pair_mem (c : String) (hc : c ∈ categories) :
    (c, type_to_handler c) ∈ categories.zip category_handlers := by
  rw [← categories_zip]
  exact List.mem_map_of_mem _ hc

/-- Per-Category dictionary facts, checked once per reachable Category on the
literal key-value pairs: every reachable Category is present in
`type_to_handler`, none of them resolves to the MRC/MCR handlers, and only
`"Undefined/Reserved"` resolves to the undefined handler. -/
theorem category_pair_facts :
    ∀ p ∈ categories.zip category_handlers,
      (p.2).isSome = true ∧
      (p.2).getD "exec_arm_undefined" ≠ "exec_arm_mrc" ∧
      (p.2).getD "exec_arm_undefined" ≠ "exec_arm_mcr" ∧
      ((p.2).getD "exec_arm_undefined" = "exec_arm_undefined" →
        p.1 = "Undefined/Reserved") := by
  decide

end GBA

namespace GBA

/-- C3: `classify` is total -- for every `opcode8` in `[0,256)` and
discriminator in `{0,1}` it returns exactly one Category string -- and the
builder loop produces a `handler_array` of length exactly 512 in which every
index `(opcode8 << 1) | discriminator` is assigned exactly once (the written
indices are pairwise distinct and are exactly `[0,512)`) and no entry remains
an unset `None` placeholder. -/
theorem classify_total_and_table_dense :
    (∀ op8 < 256, ∀ d < 2, ∃! c : String, classify op8 d = c) ∧
    handler_array.length = 512 ∧
    (∀ i < 512, ∃ h : String, handler_array[i]? = some (some h)) ∧
    write_indices.Nodup ∧
    (∀ i : Nat, i ∈ write_indices ↔ i < 512) := by
  refine ⟨fun op8 _ d _ => ⟨classify op8 d, rfl, fun y hy => hy.symm⟩, ?_, ?_, ?_, ?_⟩
  · rw [handler_array_eq]; simp
  · intro i hi
    exact ⟨handler_for i, handler_array_getElem i hi⟩
  · rw [write_indices_eq]; exact List.nodup_range 512
  · intro i
    rw [write_indices_eq, List.mem_range]

theorem classify_total_and_table_dense_witness :
    (∃! c : String, classify 0 0 = c) ∧
    (∃ h : String, handler_array[0]? = some (some h)) ∧
    (0 ∈ write_indices ↔ 0 < 512) :=
  ⟨classify_total_and_table_dense.1 0 (by decide) 0 (by decide),
   classify_total_and_table_dense.2.2.1 0 (by decide),
   classify_total_and_table_dense.2.2.2.2 0⟩

/-- C2 counterexample: `classify(0x24, 0)` does not return `"BX (possible)"`:
it returns `"SUB_IMM"`, because the data-processing rule precedes the BX rule
and matches every key with `b27 = b26 = 0` and discriminator 0. -/
theorem bx_spot_check_fails :
    classify 0x24 0 = "SUB_IMM" ∧ classify 0x24 0 ≠ "BX (possible)" := by
  decide

/-- C2 amended: the BX rule of `classify` is dead code -- `classify(0x24, 0)`
returns `"SUB_IMM"` (the data-processing rule fires first), and no input at
all yields the `"BX (possible)"` Category. -/
theorem bx_rule_unreachable :
    classify 0x24 0 = "SUB_IMM" ∧
    (∀ op8 < 256, ∀ d < 2, classify op8 d ≠ "BX (possible)") := by
  refine ⟨by decide, by decide⟩

theorem bx_rule_unreachable_witness : classify 0x24 0 ≠ "BX (possible)" :=
  bx_rule_unreachable.2 0x24 (by decide) 0 (by decide)

/-- The common LDC/STC Category of the coprocessor region, determined only by
`b20` (load vs store) and `b25` (IMM vs REG), as the specification states. -/
def ldc_stc_category (op8 : Nat) : String :=
  if op8 &&& 1 = 1 then
    (if (op8 >>> 5) &&& 1 = 0 then "LDC_IMM" else "LDC_REG")
  else
    (if (op8 >>> 5) &&& 1 = 0 then "STC_IMM" else "STC_REG")

/-- C5: on the coprocessor region (`b27 = 1`, `b26 = 1`, `b24 = 0`) the result
of `classify` is invariant under flipping the byte-select bit `b22`
(`op8 ^^^ 4`), and is the LDC/STC Category determined only by `b20`
(load vs store) and `b25` (IMM vs REG). -/
theorem coproc_byte_select_invariant :
    ∀ op8 < 256, ∀ d < 2,
      ((op8 >>> 7) &&& 1 = 1 ∧ (op8 >>> 6) &&& 1 = 1 ∧ (op8 >>> 4) &&& 1 = 0) →
      classify op8 d = classify (op8 ^^^ 4) d ∧
      classify op8 d = ldc_stc_category op8 := by
  decide

theorem coproc_byte_select_invariant_witness :
    classify 0xC1 0 = classify 0xC5 0 ∧ classify 0xC1 0 = ldc_stc_category 0xC1 :=
  coproc_byte_select_invariant 0xC1 (by decide) 0 (by decide) (by decide)

/-- C6: every single-data-transfer key (`b27 = 0`, `b26 = 1`, discriminator 0)
with post-index bit `b24 = 0` is classified with the `_POST_WB` suffix,
independently of the writeback bit `b21` (`op8 ^^^ 2`), and no input at all
yields a `*_POST_NOWB` Category. -/
theorem sdt_post_index_always_writeback :
    (∀ op8 < 256,
       (op8 >>> 7) &&& 1 = 0 → (op8 >>> 6) &&& 1 = 1 → (op8 >>> 4) &&& 1 = 0 →
       has_suffix (classify op8 0) "_POST_WB" = true ∧
       classify op8 0 = classify (op8 ^^^ 2) 0) ∧
    (∀ op8 < 256, ∀ d < 2, has_suffix (classify op8 d) "_POST_NOWB" = false) := by
  refine ⟨by decide, by decide⟩

theorem sdt_post_index_always_writeback_witness :
    (has_suffix (classify 0x40 0) "_POST_WB" = true ∧
      classify 0x40 0 = classify 0x42 0) ∧
    has_suffix (classify 0x00 0) "_POST_NOWB" = false :=
  ⟨sdt_post_index_always_writeback.1 0x40 (by decide) (by decide) (by decide)
     (by decide),
   sdt_post_index_always_writeback.2 0x00 (by decide) 0 (by decide)⟩

/-- C8: the literal spot checks of the specification hold. -/
theorem classify_spot_checks :
    classify 0x00 1 = "MUL" ∧ classify 0x00 0 = "AND_REG" ∧
    classify 0xA0 0 = "B" ∧ classify 0xF0 0 = "SWI" := by
  decide

/-- C9: `classify` never returns `"MRC"` or `"MCR"` (the four LDC/STC cases on
`(b22, b20)` are exhaustive, so the trailing branches are unreachable), and the
handlers `"exec_arm_mrc"` and `"exec_arm_mcr"` never appear in `handler_array`. -/
theorem mrc_mcr_unreachable :
    (∀ op8 < 256, ∀ d < 2, classify op8 d ≠ "MRC" ∧ classify op8 d ≠ "MCR") ∧
    some "exec_arm_mrc" ∉ handler_array ∧ some "exec_arm_mcr" ∉ handler_array := by
  refine ⟨by decide, ?_, ?_⟩
  · intro hmem
    rw [handler_array_eq] at hmem
    obtain ⟨i, hi, heq⟩ := List.mem_map.mp hmem
    rw [List.mem_range] at hi
    have hc := classify_mem_categories (i / 2) (by omega) (i % 2) (by omega)
    exact (category_pair_facts _ (handler_pair_mem _ hc)).2.1 (Option.some.inj heq)
  · intro hmem
    rw [handler_array_eq] at hmem
    obtain ⟨i, hi, heq⟩ := List.mem_map.mp hmem
    rw [List.mem_range] at hi
    have hc := classify_mem_categories (i / 2) (by omega) (i % 2) (by omega)
    exact (category_pair_facts _ (handler_pair_mem _ hc)).2.2.1 (Option.some.inj heq)

theorem mrc_mcr_unreachable_witness :
    classify 0xC0 0 ≠ "MRC" ∧ classify 0xC0 0 ≠ "MCR" :=
  mrc_mcr_unreachable.1 0xC0 (by decide) 0 (by decide)

/-- C10: every Category returned by `classify` is a key of `type_to_handler`
(in particular the placeholders `"Other DP"` and `"Other SDT"` are
unreachable), so the builder's `.get` fallback is never taken through a
missing key: an entry equal to `"exec_arm_undefined"` can only come from the
`"Undefined/Reserved"` Category. -/
theorem no_other_dp_sdt :
    ∀ a < 256, ∀ b < 2, classify a b ≠ "Other DP" ∧ classify a b ≠ "Other SDT" := by
  decide

theorem undefined_fallback_never_taken :
    (∀ op8 < 256, ∀ d < 2,
       (type_to_handler (classify op8 d)).isSome = true ∧
       classify op8 d ≠ "Other DP" ∧ classify op8 d ≠ "Other SDT") ∧
    (∀ i < 512, handler_array[i]? = some (some "exec_arm_undefined") →
       classify (i / 2) (i % 2) = "Undefined/Reserved") := by
  constructor
  · intro op8 hop8 d hd
    have hc := classify_mem_categories op8 hop8 d hd
    exact ⟨(category_pair_facts _ (handler_pair_mem _ hc)).1,
      no_other_dp_sdt op8 hop8 d hd⟩
  · intro i hi heq
    rw [handler_array_getElem i hi] at heq
    have h1 : handler_for i = "exec_arm_undefined" :=
      Option.some.inj (Option.some.inj heq)
    have hc := classify_mem_categories (i / 2) (by omega) (i % 2) (by omega)
    exact (category_pair_facts _ (handler_pair_mem _ hc)).2.2.2 h1

theorem undefined_fallback_never_taken_witness :
    ((type_to_handler (classify 0 0)).isSome = true ∧
      classify 0 0 ≠ "Other DP" ∧ classify 0 0 ≠ "Other SDT") ∧
    classify (129 / 2) (129 % 2) = "Undefined/Reserved" :=
  ⟨undefined_fallback_never_taken.1 0 (by decide) 0 (by decide),
   undefined_fallback_never_taken.2 129 (by decide)
     (by rw [handler_array_getElem 129 (by omega)]; decide)⟩

end GBA

namespace GBA

/-- One line of the compressed table emitted by `generate_cpp_table` of
src/src/inst_table.py: `single h count start` stands for the
`REPEAT_count(ARM_FN(h))` line (a plain `ARM_FN(h)` when `count = 1`),
`pair a b count start` for the line emitted by
`emit_repeat_macro((a, b), count, start)`. -/
inductive EmissionRun where
  | single (handler : String) (count start : Nat)
  | pair (a b : String) (count start : Nat)
deriving DecidableEq

/-- Expansion of one emitted line back into table entries, following the
`REPEAT_*` macro definitions of the boilerplate (lines 304-318) and the
explicit listings of `emit_repeat_macro` (lines 335-376): a single-handler
line expands to `count` copies, and a pair line expands to the period-2
alternation `a, b, a, b, ...` -- for `count == 4` this is `REPEAT_ALT(a, b)`,
which is what `emit_repeat_macro` emits for every 2-tuple with `count == 4`
(its second `elif count == 4` branch, commented `AABBAABB` and emitting
`REPEAT_2ALT`, is dead code because its condition repeats the first), and for
any other count it is the explicit `a if i % 2 == 0 else b` listing. -/
def expand_run : EmissionRun → List String
  | .single h count _ => List.replicate count h
  | .pair a b count _ => (List.range count).map (fun i => if i % 2 = 0 then a else b)

/-- Concatenation of the expansions of an emitted run sequence. -/
def expand_runs (rs : List EmissionRun) : List String :=
  (rs.map expand_run).flatten

/-- The run-length scan of lines 414-417 of src/src/inst_table.py
(`count = 1` followed by `while i + count < n and
handler_array[i + count] == handler: count += 1`): one for the entry at `i`
itself plus the number of following entries equal to it. -/
def run_length (t : List String) (i : Nat) : Nat :=
  1 + ((t.drop (i + 1)).takeWhile (fun s => s == t.getD i "")).length

/-- The first block size of `macros = [128, 64, 32, 16, 8, 4, 2, 1]` that fits
`count` (the `for m in macros: if count >= m: ... break` search of lines
419-424). -/
def pick_block (count : Nat) : Nat :=
  if 128 ≤ count then 128
  else if 64 ≤ count then 64
  else if 32 ≤ count then 32
  else if 16 ≤ count then 16
  else if 8 ≤ count then 8
  else if 4 ≤ count then 4
  else if 2 ≤ count then 2
  else 1

/-- The available block sizes (`macros` in the source). -/
def block_sizes : List Nat := [128, 64, 32, 16, 8, 4, 2, 1]

/-- The inner `while count > 0` loop of `generate_cpp_table` (lines 418-424)
with explicit structural fuel: every iteration removes `pick_block count ≥ 1`
from `count`, so any `fuel ≥ count` computes the value of the loop. -/
def emit_blocks_fuel (handler : String) : Nat → Nat → Nat → List EmissionRun
  | 0, _, _ => []
  | fuel + 1, count, start =>
    if count = 0 then []
    else
      EmissionRun.single handler (pick_block count) start ::
        emit_blocks_fuel handler fuel (count - pick_block count)
          (start + pick_block count)

/-- The inner loop, entered with sufficient fuel `count`. -/
def emit_blocks (handler : String) (count start : Nat) : List EmissionRun :=
  emit_blocks_fuel handler count count start

/-- The main `while i < n` scan of `generate_cpp_table` (lines 383-425),
producing the emitted runs instead of the emitted text lines, with explicit
structural fuel: every iteration advances `i` by at least 1 (by 4 after a
pattern match, else by `run_length t i ≥ 1`), so any `fuel ≥ n - i` computes
the value of the loop.  The first branch is the ABAB check (`a, b, a, b` with
`a != b`), the second the AABB check (`a, a, b, b` with `a != b`), the third
the maximal uniform run greedily decomposed into power-of-two blocks. -/
def generate_runs (t : List String) : Nat → Nat → List EmissionRun
  | 0, _ => []
  | fuel + 1, i =>
    if hi : i < t.length then
      if h4 : i + 3 < t.length then
        if t[i + 2] = t[i] ∧ t[i + 3] = t[i + 1] ∧ t[i] ≠ t[i + 1] then
          EmissionRun.pair (t[i]) (t[i + 1]) 4 i :: generate_runs t fuel (i + 4)
        else if t[i + 1] = t[i] ∧ t[i + 3] = t[i + 2] ∧ t[i] ≠ t[i + 2] then
          EmissionRun.pair (t[i]) (t[i + 2]) 4 i :: generate_runs t fuel (i + 4)
        else
          emit_blocks (t[i]) (run_length t i) i ++
            generate_runs t fuel (i + run_length t i)
      else
        emit_blocks (t[i]) (run_length t i) i ++
          generate_runs t fuel (i + run_length t i)
    else []

/-- `generate_cpp_table(handler_array)` as a run sequence: the scan started at
index 0 with sufficient fuel. -/
def generate_cpp_table (t : List String) : List EmissionRun :=
  generate_runs t t.length 0

/-- A 512-entry DispatchTable starting with the block pattern x, x, y, y. -/
def c1_failing_table : List String :=
  "x" :: "x" :: "y" :: "y" :: List.replicate 508 "x"

/-- C1 (code bug): on this 512-entry DispatchTable the AABB detector of
`generate_cpp_table` fires at index 0, but the emitted line is
`REPEAT_ALT(ARM_FN(x), ARM_FN(y))` -- expanding to `x, y, x, y` -- because
the `REPEAT_2ALT` branch of `emit_repeat_macro` is dead code, so the
concatenated expansion of the emitted runs differs from the table at index 1
and the compress/expand round trip fails. -/
theorem roundtrip_fails_on_aabb :
    c1_failing_table.length = 512 ∧
    generate_cpp_table c1_failing_table =
      EmissionRun.pair "x" "y" 4 0 :: emit_blocks "x" 508 4 ∧
    (expand_runs (generate_cpp_table c1_failing_table))[1]? = some "y" ∧
    c1_failing_table[1]? = some "x" ∧
    expand_runs (generate_cpp_table c1_failing_table) ≠ c1_failing_table := by
  decide

end GBA

namespace GBA

/-- Population count with explicit structural fuel (`n / 2 < n` for `n ≥ 1`,
so any `fuel ≥ n` computes the number of 1 bits of `n`). -/
def popcount_fuel : Nat → Nat → Nat
  | 0, _ => 0
  | fuel + 1, n => if n = 0 then 0 else popcount_fuel fuel (n / 2) + n % 2

/-- Number of 1 bits in the binary representation of `n`. -/
def popcount (n : Nat) : Nat := popcount_fuel n n

/-- C4 counterexample: the all-equal 512-entry DispatchTable is one maximal
uniform run of length 512 with no alternation, yet `generate_cpp_table`
covers it with 4 runs (`REPEAT_128` four times) while `popcount 512 = 1`. -/
theorem greedy_popcount_counterexample :
    generate_cpp_table (List.replicate 512 "h") = emit_blocks "h" 512 0 ∧
    (generate_cpp_table (List.replicate 512 "h")).length = 4 ∧
    popcount 512 = 1 := by
  decide

/-- The number of blocks emitted by the inner loop depends only on `count`. -/
theorem emit_blocks_fuel_length (fuel : Nat) :
    ∀ (count s1 s2 : Nat) (h1 h2 : String),
      (emit_blocks_fuel h1 fuel count s1).length =
        (emit_blocks_fuel h2 fuel count s2).length := by
  induction fuel with
  | zero => intro count s1 s2 h1 h2; rfl
  | succ k ih =>
    intro count s1 s2 h1 h2
    by_cases hc : count = 0
    · simp [emit_blocks_fuel, hc]
    · simp only [emit_blocks_fuel, if_neg hc, List.length_cons]
      rw [ih]

/-- Splitting off full 128-blocks from the greedy count formula. -/
theorem block_count_split (q x : Nat) :
    (128 * q + x) / 128 + popcount ((128 * q + x) % 128) =
      q + (x / 128 + popcount (x % 128)) := by
  have h1 : (128 * q + x) / 128 = q + x / 128 := by omega
  have h2 : (128 * q + x) % 128 = x % 128 := by omega
  rw [h1, h2]
  omega

/-- Adding one block never increases the greedy count formula by more than 1. -/
theorem block_count_step (b : Nat) (hb : b ∈ block_sizes) (s : Nat) :
    (b + s) / 128 + popcount ((b + s) % 128) ≤
      (s / 128 + popcount (s % 128)) + 1 := by
  have hsmall : ∀ r < 128, ∀ c ∈ [64, 32, 16, 8, 4, 2, 1],
      (c + r) / 128 + popcount ((c + r) % 128) ≤ popcount r + 1 := by decide
  rcases List.mem_cons.mp hb with rfl | hb'
  · have h1 : (128 + s) / 128 = s / 128 + 1 := by omega
    have h2 : (128 + s) % 128 = s % 128 := by omega
    rw [h1, h2]
    omega
  · have hr : s % 128 < 128 := by omega
    have hbs : b + s = 128 * (s / 128) + (b + s % 128) := by omega
    rw [hbs, block_count_split]
    have hx := hsmall (s % 128) hr b hb'
    have hs : s / 128 + popcount (s % 128) =
        s / 128 + ((s % 128) / 128 + popcount ((s % 128) % 128)) := by
      have e1 : (s % 128) / 128 = 0 := by omega
      have e2 : (s % 128) % 128 = s % 128 := by omega
      rw [e1, e2]
      omega
    omega

/-- Any multiset of blocks from the repertoire summing to `L` has at least
`L / 128 + popcount (L % 128)` elements. -/
theorem block_count_min (blocks : List Nat) :
    (∀ b ∈ blocks, b ∈ block_sizes) →
    blocks.sum / 128 + popcount (blocks.sum % 128) ≤ blocks.length := by
  induction blocks with
  | nil => intro _; decide
  | cons b bs ih =>
    intro hmem
    have hb : b ∈ block_sizes := hmem b (by simp)
    have ih' := ih (fun x hx => hmem x (by simp [hx]))
    have hstep := block_count_step b hb bs.sum
    simp only [List.sum_cons, List.length_cons]
    omega

/-- C4 amended: for a uniform run of length `L` (`1 ≤ L ≤ 512`) the inner loop
of `generate_cpp_table` emits exactly `L / 128 + popcount (L % 128)` blocks --
this equals `popcount L` whenever `L ≤ 255`, but not beyond (only blocks up to
128 are available, see the counterexample at `L = 512`) -- and this is the
minimum possible number of blocks drawn from the repertoire
`{128, 64, 32, 16, 8, 4, 2, 1}`. -/
theorem greedy_block_count (L : Nat) (hL1 : 1 ≤ L) (hL2 : L ≤ 512) :
    ∀ (handler : String) (start : Nat),
      (emit_blocks handler L start).length = L / 128 + popcount (L % 128) ∧
      (L ≤ 255 → (emit_blocks handler L start).length = popcount L) ∧
      (∀ blocks : List Nat, (∀ b ∈ blocks, b ∈ block_sizes) → blocks.sum = L →
        L / 128 + popcount (L % 128) ≤ blocks.length) := by
  intro handler start
  have hval : ∀ M, 1 ≤ M → M ≤ 512 →
      (emit_blocks "" M 0).length = M / 128 + popcount (M % 128) := by decide
  have hco : ∀ M, 1 ≤ M → M ≤ 255 →
      M / 128 + popcount (M % 128) = popcount M := by decide
  have hlen : (emit_blocks handler L start).length = (emit_blocks "" L 0).length :=
    emit_blocks_fuel_length L L start 0 handler ""
  refine ⟨?_, ?_, ?_⟩
  · rw [hlen]; exact hval L hL1 hL2
  · intro h255
    rw [hlen, hval L hL1 hL2]
    exact hco L hL1 h255
  · intro blocks hmem hsum
    subst hsum
    exact block_count_min blocks hmem

theorem greedy_block_count_witness :
    (emit_blocks "h" 13 0).length = 13 / 128 + popcount (13 % 128) ∧
    13 / 128 + popcount (13 % 128) ≤ ([8, 4, 1] : List Nat).length :=
  ⟨(greedy_block_count 13 (by decide) (by decide) "h" 0).1,
   (greedy_block_count 13 (by decide) (by decide) "h" 0).2.2 [8, 4, 1]
     (by decide) (by decide)⟩

end GBA


namespace GBA

/-- Embedding of the `mgba_to_yours` dictionary of src/src/cross_check_tables.py (lines 4-233):
the canonical mapping from mgba handler names to local handler names. -/
def mgba_to_yours (s : String) : Option String :=
  match s with
  | "AND_LSL" => some "exec_arm_and_reg"
  | "AND_LSR" => some "exec_arm_and_reg"
  | "AND_ASR" => some "exec_arm_and_reg"
  | "AND_ROR" => some "exec_arm_and_reg"
  | "ANDS_LSL" => some "exec_arm_and_reg"
  | "ANDS_LSR" => some "exec_arm_and_reg"
  | "ANDS_ASR" => some "exec_arm_and_reg"
  | "ANDS_ROR" => some "exec_arm_and_reg"
  | "EOR_LSL" => some "exec_arm_eor_reg"
  | "EOR_LSR" => some "exec_arm_eor_reg"
  | "EOR_ASR" => some "exec_arm_eor_reg"
  | "EOR_ROR" => some "exec_arm_eor_reg"
  | "EORS_LSL" => some "exec_arm_eor_reg"
  | "EORS_LSR" => some "exec_arm_eor_reg"
  | "EORS_ASR" => some "exec_arm_eor_reg"
  | "EORS_ROR" => some "exec_arm_eor_reg"
  | "SUB_LSL" => some "exec_arm_sub_reg"
  | "SUB_LSR" => some "exec_arm_sub_reg"
  | "SUB_ASR" => some "exec_arm_sub_reg"
  | "SUB_ROR" => some "exec_arm_sub_reg"
  | "SUBS_LSL" => some "exec_arm_sub_reg"
  | "SUBS_LSR" => some "exec_arm_sub_reg"
  | "SUBS_ASR" => some "exec_arm_sub_reg"
  | "SUBS_ROR" => some "exec_arm_sub_reg"
  | "RSB_LSL" => some "exec_arm_rsb_reg"
  | "RSB_LSR" => some "exec_arm_rsb_reg"
  | "RSB_ASR" => some "exec_arm_rsb_reg"
  | "RSB_ROR" => some "exec_arm_rsb_reg"
  | "RSBS_LSL" => some "exec_arm_rsb_reg"
  | "RSBS_LSR" => some "exec_arm_rsb_reg"
  | "RSBS_ASR" => some "exec_arm_rsb_reg"
  | "RSBS_ROR" => some "exec_arm_rsb_reg"
  | "ADD_LSL" => some "exec_arm_add_reg"
  | "ADD_LSR" => some "exec_arm_add_reg"
  | "ADD_ASR" => some "exec_arm_add_reg"
  | "ADD_ROR" => some "exec_arm_add_reg"
  | "ADDS_LSL" => some "exec_arm_add_reg"
  | "ADDS_LSR" => some "exec_arm_add_reg"
  | "ADDS_ASR" => some "exec_arm_add_reg"
  | "ADDS_ROR" => some "exec_arm_add_reg"
  | "ADC_LSL" => some "exec_arm_adc_reg"
  | "ADC_LSR" => some "exec_arm_adc_reg"
  | "ADC_ASR" => some "exec_arm_adc_reg"
  | "ADC_ROR" => some "exec_arm_adc_reg"
  | "ADCS_LSL" => some "exec_arm_adc_reg"
  | "ADCS_LSR" => some "exec_arm_adc_reg"
  | "ADCS_ASR" => some "exec_arm_adc_reg"
  | "ADCS_ROR" => some "exec_arm_adc_reg"
  | "SBC_LSL" => some "exec_arm_sbc_reg"
  | "SBC_LSR" => some "exec_arm_sbc_reg"
  | "SBC_ASR" => some "exec_arm_sbc_reg"
  | "SBC_ROR" => some "exec_arm_sbc_reg"
  | "SBCS_LSL" => some "exec_arm_sbc_reg"
  | "SBCS_LSR" => some "exec_arm_sbc_reg"
  | "SBCS_ASR" => some "exec_arm_sbc_reg"
  | "SBCS_ROR" => some "exec_arm_sbc_reg"
  | "RSC_LSL" => some "exec_arm_rsc_reg"
  | "RSC_LSR" => some "exec_arm_rsc_reg"
  | "RSC_ASR" => some "exec_arm_rsc_reg"
  | "RSC_ROR" => some "exec_arm_rsc_reg"
  | "RSCS_LSL" => some "exec_arm_rsc_reg"
  | "RSCS_LSR" => some "exec_arm_rsc_reg"
  | "RSCS_ASR" => some "exec_arm_rsc_reg"
  | "RSCS_ROR" => some "exec_arm_rsc_reg"
  | "MUL" => some "exec_arm_mul"
  | "MULS" => some "exec_arm_mul"
  | "MLA" => some "exec_arm_mla"
  | "MLAS" => some "exec_arm_mla"
  | "UMULL" => some "exec_arm_umull"
  | "UMULLS" => some "exec_arm_umull"
  | "UMLAL" => some "exec_arm_umlal"
  | "UMLALS" => some "exec_arm_umlal"
  | "SMULL" => some "exec_arm_smull"
  | "SMULLS" => some "exec_arm_smull"
  | "SMLAL" => some "exec_arm_smlal"
  | "SMLALS" => some "exec_arm_smlal"
  | "SWP" => some "exec_arm_swp"
  | "SWPB" => some "exec_arm_swpb"
  | "MRS" => some "exec_arm_mrs"
  | "MSR" => some "exec_arm_msr"
  | "MRSR" => some "exec_arm_undefined"
  | "MSRR" => some "exec_arm_undefined"
  | "TST_LSL" => some "exec_arm_tst_reg"
  | "TST_LSR" => some "exec_arm_tst_reg"
  | "TST_ASR" => some "exec_arm_tst_reg"
  | "TST_ROR" => some "exec_arm_tst_reg"
  | "TEQ_LSL" => some "exec_arm_teq_reg"
  | "TEQ_LSR" => some "exec_arm_teq_reg"
  | "TEQ_ASR" => some "exec_arm_teq_reg"
  | "TEQ_ROR" => some "exec_arm_teq_reg"
  | "CMP_LSL" => some "exec_arm_cmp_reg"
  | "CMP_LSR" => some "exec_arm_cmp_reg"
  | "CMP_ASR" => some "exec_arm_cmp_reg"
  | "CMP_ROR" => some "exec_arm_cmp_reg"
  | "CMN_LSL" => some "exec_arm_cmn_reg"
  | "CMN_LSR" => some "exec_arm_cmn_reg"
  | "CMN_ASR" => some "exec_arm_cmn_reg"
  | "CMN_ROR" => some "exec_arm_cmn_reg"
  | "ORR_LSL" => some "exec_arm_orr_reg"
  | "ORR_LSR" => some "exec_arm_orr_reg"
  | "ORR_ASR" => some "exec_arm_orr_reg"
  | "ORR_ROR" => some "exec_arm_orr_reg"
  | "ORRS_LSL" => some "exec_arm_orr_reg"
  | "ORRS_LSR" => some "exec_arm_orr_reg"
  | "ORRS_ASR" => some "exec_arm_orr_reg"
  | "ORRS_ROR" => some "exec_arm_orr_reg"
  | "MOV_LSL" => some "exec_arm_mov_reg"
  | "MOV_LSR" => some "exec_arm_mov_reg"
  | "MOV_ASR" => some "exec_arm_mov_reg"
  | "MOV_ROR" => some "exec_arm_mov_reg"
  | "MOVS_LSL" => some "exec_arm_mov_reg"
  | "MOVS_LSR" => some "exec_arm_mov_reg"
  | "MOVS_ASR" => some "exec_arm_mov_reg"
  | "MOVS_ROR" => some "exec_arm_mov_reg"
  | "BIC_LSL" => some "exec_arm_bic_reg"
  | "BIC_LSR" => some "exec_arm_bic_reg"
  | "BIC_ASR" => some "exec_arm_bic_reg"
  | "BIC_ROR" => some "exec_arm_bic_reg"
  | "BICS_LSL" => some "exec_arm_bic_reg"
  | "BICS_LSR" => some "exec_arm_bic_reg"
  | "BICS_ASR" => some "exec_arm_bic_reg"
  | "BICS_ROR" => some "exec_arm_bic_reg"
  | "MVN_LSL" => some "exec_arm_mvn_reg"
  | "MVN_LSR" => some "exec_arm_mvn_reg"
  | "MVN_ASR" => some "exec_arm_mvn_reg"
  | "MVN_ROR" => some "exec_arm_mvn_reg"
  | "MVNS_LSL" => some "exec_arm_mvn_reg"
  | "MVNS_LSR" => some "exec_arm_mvn_reg"
  | "MVNS_ASR" => some "exec_arm_mvn_reg"
  | "MVNS_ROR" => some "exec_arm_mvn_reg"
  | "ANDI" => some "exec_arm_and_imm"
  | "ANDSI" => some "exec_arm_and_imm"
  | "EORI" => some "exec_arm_eor_imm"
  | "EORSI" => some "exec_arm_eor_imm"
  | "SUBI" => some "exec_arm_sub_imm"
  | "SUBSI" => some "exec_arm_sub_imm"
  | "RSBI" => some "exec_arm_rsb_imm"
  | "RSBSI" => some "exec_arm_rsb_imm"
  | "ADDI" => some "exec_arm_add_imm"
  | "ADDSI" => some "exec_arm_add_imm"
  | "ADCI" => some "exec_arm_adc_imm"
  | "ADCSI" => some "exec_arm_adc_imm"
  | "SBCI" => some "exec_arm_sbc_imm"
  | "SBCSI" => some "exec_arm_sbc_imm"
  | "RSCI" => some "exec_arm_rsc_imm"
  | "RSCSI" => some "exec_arm_rsc_imm"
  | "TSTI" => some "exec_arm_tst_imm"
  | "TEQI" => some "exec_arm_teq_imm"
  | "CMPI" => some "exec_arm_cmp_imm"
  | "CMNI" => some "exec_arm_cmn_imm"
  | "ORRI" => some "exec_arm_orr_imm"
  | "ORRSI" => some "exec_arm_orr_imm"
  | "MOVI" => some "exec_arm_mov_imm"
  | "MOVSI" => some "exec_arm_mov_imm"
  | "BICI" => some "exec_arm_bic_imm"
  | "BICSI" => some "exec_arm_bic_imm"
  | "MVNI" => some "exec_arm_mvn_imm"
  | "MVNSI" => some "exec_arm_mvn_imm"
  | "STRI" => some "exec_arm_str_imm_pre_nowb"
  | "LDRI" => some "exec_arm_ldr_imm_pre_nowb"
  | "STRTI" => some "exec_arm_str_imm_pre_wb"
  | "LDRTI" => some "exec_arm_ldr_imm_pre_wb"
  | "STRBI" => some "exec_arm_strb_imm_pre_nowb"
  | "LDRBI" => some "exec_arm_ldrb_imm_pre_nowb"
  | "STRBTI" => some "exec_arm_strb_imm_pre_wb"
  | "LDRBTI" => some "exec_arm_ldrb_imm_pre_wb"
  | "STRIU" => some "exec_arm_str_imm_post_wb"
  | "LDRIU" => some "exec_arm_ldr_imm_post_wb"
  | "STRTIU" => some "exec_arm_str_imm_post_wb"
  | "LDRTIU" => some "exec_arm_ldr_imm_post_wb"
  | "STRBIU" => some "exec_arm_strb_imm_post_wb"
  | "LDRBIU" => some "exec_arm_ldrb_imm_post_wb"
  | "STRBTIU" => some "exec_arm_strb_imm_post_wb"
  | "LDRBTIU" => some "exec_arm_ldrb_imm_post_wb"
  | "STMDA" => some "exec_arm_stm"
  | "LDMDA" => some "exec_arm_ldm"
  | "STMDAW" => some "exec_arm_stm"
  | "LDMDAW" => some "exec_arm_ldm"
  | "STMSDA" => some "exec_arm_stm"
  | "LDMSDA" => some "exec_arm_ldm"
  | "STMSDAW" => some "exec_arm_stm"
  | "LDMSDAW" => some "exec_arm_ldm"
  | "STMIA" => some "exec_arm_stm"
  | "LDMIA" => some "exec_arm_ldm"
  | "STMIAW" => some "exec_arm_stm"
  | "LDMIAW" => some "exec_arm_ldm"
  | "STMSIA" => some "exec_arm_stm"
  | "LDMSIA" => some "exec_arm_ldm"
  | "STMSIAW" => some "exec_arm_stm"
  | "LDMSIAW" => some "exec_arm_ldm"
  | "STMDB" => some "exec_arm_stm"
  | "LDMDB" => some "exec_arm_ldm"
  | "STMDBW" => some "exec_arm_stm"
  | "LDMDBW" => some "exec_arm_ldm"
  | "STMSDB" => some "exec_arm_stm"
  | "LDMSDB" => some "exec_arm_ldm"
  | "STMSDBW" => some "exec_arm_stm"
  | "LDMSDBW" => some "exec_arm_ldm"
  | "STMIB" => some "exec_arm_stm"
  | "LDMIB" => some "exec_arm_ldm"
  | "STMIBW" => some "exec_arm_stm"
  | "LDMIBW" => some "exec_arm_ldm"
  | "STMSIB" => some "exec_arm_stm"
  | "LDMSIB" => some "exec_arm_ldm"
  | "STMSIBW" => some "exec_arm_stm"
  | "LDMSIBW" => some "exec_arm_ldm"
  | "B" => some "exec_arm_b"
  | "BL" => some "exec_arm_bl"
  | "STC" => some "exec_arm_stc_imm"
  | "LDC" => some "exec_arm_ldc_imm"
  | "CDP" => some "exec_arm_undefined"
  | "MCR" => some "exec_arm_undefined"
  | "MRC" => some "exec_arm_undefined"
  | "SWI" => some "exec_arm_software_interrupt"
  | "ILL" => some "exec_arm_undefined"
  | _ => none

/-- One mismatch report printed by the validator loop of
src/src/cross_check_tables.py (line 268): the key, the foreign (mgba) handler
name, the canonically mapped expected local name, and the actual local name. -/
structure Mismatch where
  key : Nat
  mgba_handler : String
  mapped_handler : String
  your_handler : String
deriving DecidableEq

/-- The key list `sorted(set(mgba_table.keys()) | set(your_table.keys()))` of
line 261; the parsed tables are modeled as association lists. -/
def all_keys (mgba_table your_table : List (Nat × String)) : List Nat :=
  ((mgba_table.map Prod.fst ++ your_table.map Prod.fst).dedup).mergeSort
    (fun a b => a ≤ b)

/-- The comparison `mapped_handler != your_handler` of line 267, with the
three defaulted lookups of lines 264-266. -/
def is_mismatch (mgba_table your_table : List (Nat × String)) (key : Nat) : Bool :=
  (mgba_to_yours ((mgba_table.lookup key).getD "ILL")).getD "(unmapped)" !=
    (your_table.lookup key).getD "exec_arm_undefined"

/-- The mismatch report of line 268 for one key. -/
def mismatch_at (mgba_table your_table : List (Nat × String)) (key : Nat) :
    Mismatch where
  key := key
  mgba_handler := (mgba_table.lookup key).getD "ILL"
  mapped_handler :=
    (mgba_to_yours ((mgba_table.lookup key).getD "ILL")).getD "(unmapped)"
  your_handler := (your_table.lookup key).getD "exec_arm_undefined"

/-- The validator loop of `main` (lines 258-270 of
src/src/cross_check_tables.py): for every key of the sorted union, print a
mismatch report and bump the counter when the mapped expected name differs
from the actual one.  The printed reports are collected in the first
component, the `mismatches` counter in the second. -/
def cross_check (mgba_table your_table : List (Nat × String)) :
    List Mismatch × Nat :=
  (all_keys mgba_table your_table).foldl
    (fun acc key =>
      if is_mismatch mgba_table your_table key then
        (acc.1 ++ [mismatch_at mgba_table your_table key], acc.2 + 1)
      else acc)
    ([], 0)

/-- The validator loop never stops early: over any key list it accumulates
exactly the filtered mismatch reports and counts them. -/
theorem cross_check_loop (mt yt : List (Nat × String)) (l : List Nat) :
    ∀ acc : List Mismatch × Nat,
      l.foldl
        (fun acc key =>
          if is_mismatch mt yt key then
            (acc.1 ++ [mismatch_at mt yt key], acc.2 + 1)
          else acc)
        acc =
      (acc.1 ++ (l.filter (is_mismatch mt yt)).map (mismatch_at mt yt),
       acc.2 + (l.filter (is_mismatch mt yt)).length) := by
  induction l with
  | nil => intro acc; simp
  | cons k ks ih =>
    intro acc
    simp only [List.foldl_cons, List.filter_cons]
    by_cases hk : is_mismatch mt yt k
    · rw [if_pos hk, if_pos hk, ih]
      simp [List.append_assoc]
      omega
    · rw [if_neg hk, if_neg hk, ih]

/-- C7: for every key in the union of the two tables the validator looks up
the foreign name (default `"ILL"`), maps it through `mgba_to_yours` (default
`"(unmapped)"`), looks up the actual local name (default
`"exec_arm_undefined"`), records a mismatch report exactly for the keys where
the mapped name differs from the actual one, processes every key of the union
without halting early, and reports a total equal to the number of recorded
mismatches. -/
theorem cross_check_spec (mgba_table your_table : List (Nat × String)) :
    (cross_check mgba_table your_table).1 =
      ((all_keys mgba_table your_table).filter (fun key =>
        (mgba_to_yours ((mgba_table.lookup key).getD "ILL")).getD "(unmapped)" !=
          (your_table.lookup key).getD "exec_arm_undefined")).map (fun key =>
        { key := key
          mgba_handler := (mgba_table.lookup key).getD "ILL"
          mapped_handler :=
            (mgba_to_yours ((mgba_table.lookup key).getD "ILL")).getD "(unmapped)"
          your_handler := (your_table.lookup key).getD "exec_arm_undefined" }) ∧
    (cross_check mgba_table your_table).2 =
      (cross_check mgba_table your_table).1.length ∧
    (∀ key : Nat, key ∈ all_keys mgba_table your_table ↔
      key ∈ mgba_table.map Prod.fst ∨ key ∈ your_table.map Prod.fst) := by
  have hloop := cross_check_loop mgba_table your_table
    (all_keys mgba_table your_table) ([], 0)
  refine ⟨?_, ?_, ?_⟩
  · show (cross_check mgba_table your_table).1 = _
    rw [cross_check, hloop]
    rfl
  · rw [cross_check, hloop]
    simp
  · intro key
    rw [all_keys, (List.mergeSort_perm _ _).mem_iff, List.mem_dedup,
      List.mem_append]

end GBA

